import Mathlib

deriving instance DecidableEq for Except

/-!
Shallow embedding of the Shared Travel Planner service
(`src/app/main.py`, `src/app/models.py`, `src/app/schemas.py`).

Rows of the SQLModel tables become Lean structures; the database session
becomes an explicit `DB` record of row lists plus autoincrement counters
(SQLite autoincrement starts at 1); each FastAPI handler becomes a pure
function returning `Except ApiError result` together with the resulting
database state.  `HTTPException` raised before any `session.add`/`commit`
leaves the store untouched, so error branches return the input `DB`
unchanged.  `datetime.utcnow()` values are modelled by an explicit `now`
argument; dates and datetimes are abstract `Nat` timestamps, which none of
the handler logic inspects.
-/

namespace App

/-- Row of the `user` table (`models.py`, class `User`). -/
structure User where
  id : Nat
  email : String
  hashed_password : String
  created_at : Nat
deriving DecidableEq, Repr

/-- Row of the `trip` table (`models.py`, class `Trip`). -/
structure Trip where
  id : Nat
  name : String
  owner_id : Nat
  start_date : Option Nat
  end_date : Option Nat
  created_at : Nat
deriving DecidableEq, Repr

/-- Row of the `flight` table (`models.py`, class `Flight`). -/
structure Flight where
  id : Nat
  trip_id : Nat
  airline : String
  departure_airport : String
  arrival_airport : String
  departure_time : Nat
  arrival_time : Nat
deriving DecidableEq, Repr

/-- Row of the `hotel` table (`models.py`, class `Hotel`). -/
structure Hotel where
  id : Nat
  trip_id : Nat
  name : String
  city : String
  check_in : Nat
  check_out : Nat
deriving DecidableEq, Repr

/-- Row of the `tripshare` table (`models.py`, class `TripShare`);
composite primary key `(trip_id, user_id)`. -/
structure TripShare where
  trip_id : Nat
  user_id : Nat
  created_at : Nat
deriving DecidableEq, Repr

/-- The backing store: one list per table, in insertion order, plus the
autoincrement counters for the integer primary keys. -/
structure DB where
  users : List User
  trips : List Trip
  flights : List Flight
  hotels : List Hotel
  shares : List TripShare
  next_user_id : Nat
  next_trip_id : Nat
  next_flight_id : Nat
  next_hotel_id : Nat
deriving DecidableEq, Repr

/-- The store produced by `SQLModel.metadata.create_all`: empty tables,
autoincrement keys starting at 1. -/
def emptyDB : DB :=
  { users := [], trips := [], flights := [], hotels := [], shares := []
    next_user_id := 1, next_trip_id := 1, next_flight_id := 1, next_hotel_id := 1 }

/-- Domain outcome of an `HTTPException(status_code, detail)`. -/
inductive ApiError where
  | badRequest (detail : String)
  | unauthorized (detail : String)
  | forbidden (detail : String)
  | notFound (detail : String)
deriving DecidableEq, Repr

/-- HTTP status code carried by each `ApiError` constructor. -/
def ApiError.status : ApiError → Nat
  | .badRequest _ => 400
  | .unauthorized _ => 401
  | .forbidden _ => 403
  | .notFound _ => 404

/-- Request body of `POST /trips/{id}/flights` (`schemas.py`, `FlightCreate`). -/
structure FlightCreate where
  airline : String
  departure_airport : String
  arrival_airport : String
  departure_time : Nat
  arrival_time : Nat
deriving DecidableEq, Repr

/-- Request body of `POST /trips/{id}/hotels` (`schemas.py`, `HotelCreate`). -/
structure HotelCreate where
  name : String
  city : String
  check_in : Nat
  check_out : Nat
deriving DecidableEq, Repr

/-- Request body of `POST /trips` (`schemas.py`, `TripCreate`). -/
structure TripCreate where
  name : String
  start_date : Option Nat
  end_date : Option Nat
  flights : List FlightCreate
  hotels : List HotelCreate
deriving DecidableEq, Repr

/-- Response body of `POST /auth/register` (`schemas.py`, `UserRead`). -/
structure UserRead where
  id : Nat
  email : String
deriving DecidableEq, Repr

/-- Response body of `POST /auth/login` (`schemas.py`, `Token`). -/
structure Token where
  access_token : String
  token_type : String
deriving DecidableEq, Repr

/-- Flight as embedded in a `TripRead` (`schemas.py`, `FlightRead`). -/
structure FlightRead where
  id : Nat
  airline : String
  departure_airport : String
  arrival_airport : String
  departure_time : Nat
  arrival_time : Nat
deriving DecidableEq, Repr

/-- Hotel as embedded in a `TripRead` (`schemas.py`, `HotelRead`). -/
structure HotelRead where
  id : Nat
  name : String
  city : String
  check_in : Nat
  check_out : Nat
deriving DecidableEq, Repr

/-- Composite trip view (`schemas.py`, `TripRead`). -/
structure TripRead where
  id : Nat
  name : String
  owner_id : Nat
  start_date : Option Nat
  end_date : Option Nat
  flights : List FlightRead
  hotels : List HotelRead
  shared_with_user_ids : List Nat
deriving DecidableEq, Repr

/-- Pydantic coercion of a `Flight` ORM row into a `FlightRead`. -/
def Flight.toRead (f : Flight) : FlightRead :=
  { id := f.id, airline := f.airline, departure_airport := f.departure_airport
    arrival_airport := f.arrival_airport, departure_time := f.departure_time
    arrival_time := f.arrival_time }

/-- Pydantic coercion of a `Hotel` ORM row into a `HotelRead`. -/
def Hotel.toRead (h : Hotel) : HotelRead :=
  { id := h.id, name := h.name, city := h.city
    check_in := h.check_in, check_out := h.check_out }

/-- Modelled from the spec: `src/app/auth.py` is not under `src/`.  The spec
says hashing uses a one-way salted algorithm and that verification compares
the password against the stored hash; the concrete digest is irrelevant to
every claim, so an injective stand-in tags the plaintext. -/
def get_password_hash (password : String) : String :=
  "hashed$" ++ password

/-- Modelled from the spec: `src/app/auth.py` is not under `src/`.  The spec
says `verify` compares the password against the stored hash; it succeeds
exactly when hashing the candidate reproduces the stored digest. -/
def verify_password (plain hashed : String) : Bool :=
  get_password_hash plain == hashed

/-- Modelled from the spec: `src/app/auth.py` is not under `src/`.  The spec
says the token is a signed bearer token binding the subject to the user id,
as in the call at `main.py` line 49; the signature scheme is configuration,
so the model keeps just the subject. -/
def create_access_token (sub : Nat) : String :=
  "token$sub=" ++ toString sub

/-- `select(User).where(User.email == email)).first()`. -/
def findUserByEmail (db : DB) (email : String) : Option User :=
  db.users.find? (fun u => u.email == email)

/-- `session.get(Trip, trip_id)`: primary-key lookup. -/
def getTripById (db : DB) (trip_id : Nat) : Option Trip :=
  db.trips.find? (fun t => t.id == trip_id)

/-- `_fetch_flights` (`main.py` line 180). -/
def fetch_flights (db : DB) (trip_id : Nat) : List Flight :=
  db.flights.filter (fun f => f.trip_id == trip_id)

/-- `_fetch_hotels` (`main.py` line 184). -/
def fetch_hotels (db : DB) (trip_id : Nat) : List Hotel :=
  db.hotels.filter (fun h => h.trip_id == trip_id)

/-- `_fetch_share_ids` (`main.py` line 188). -/
def fetch_share_ids (db : DB) (trip_id : Nat) : List Nat :=
  (db.shares.filter (fun s => s.trip_id == trip_id)).map (fun s => s.user_id)

/-- `_user_has_access` (`main.py` line 192): a `TripShare` row for
`(trip_id, user_id)` exists. -/
def user_has_access (db : DB) (user_id trip_id : Nat) : Bool :=
  (db.shares.find? (fun s => s.trip_id == trip_id && s.user_id == user_id)).isSome

/-- `_trip_to_read` (`main.py` line 205). -/
def trip_to_read (trip : Trip) (flights : List Flight) (hotels : List Hotel)
    (shared_ids : List Nat) : TripRead :=
  { id := trip.id, name := trip.name, owner_id := trip.owner_id
    start_date := trip.start_date, end_date := trip.end_date
    flights := flights.map Flight.toRead, hotels := hotels.map Hotel.toRead
    shared_with_user_ids := shared_ids }

/-- `_ensure_trip_access` (`main.py` line 197): 404 if the trip does not
exist, then 403 unless owner or share row. -/
def ensure_trip_access (db : DB) (user_id trip_id : Nat) : Except ApiError Unit :=
  match getTripById db trip_id with
  | none => .error (.notFound "Trip not found")
  | some trip =>
      if trip.owner_id != user_id && !(user_has_access db user_id trip_id) then
        .error (.forbidden "Not authorized for this trip")
      else
        .ok ()

/-- `POST /auth/register` (`main.py` line 29). -/
def register (db : DB) (now : Nat) (email password : String) :
    Except ApiError UserRead × DB :=
  match findUserByEmail db email with
  | some _ => (.error (.badRequest "Email already registered"), db)
  | none =>
      let user : User :=
        { id := db.next_user_id, email := email
          hashed_password := get_password_hash password, created_at := now }
      (.ok { id := user.id, email := user.email },
       { db with users := db.users ++ [user], next_user_id := db.next_user_id + 1 })

/-- `POST /auth/login` (`main.py` line 43): `if not user or not
verify_password(...)` raises 401 with one fixed detail string. -/
def login (db : DB) (username password : String) : Except ApiError Token :=
  match findUserByEmail db username with
  | none => .error (.unauthorized "Incorrect email or password")
  | some user =>
      if verify_password password user.hashed_password then
        .ok { access_token := create_access_token user.id, token_type := "bearer" }
      else
        .error (.unauthorized "Incorrect email or password")

/-- `POST /trips` (`main.py` line 53): inserts the trip, then the flight and
hotel rows in list order (autoincrement ids in insertion order), and answers
with the freshly built rows and an empty share list. -/
def create_trip (db : DB) (now : Nat) (current_user_id : Nat) (tc : TripCreate) :
    Except ApiError TripRead × DB :=
  let trip : Trip :=
    { id := db.next_trip_id, name := tc.name, owner_id := current_user_id
      start_date := tc.start_date, end_date := tc.end_date, created_at := now }
  let flights : List Flight :=
    tc.flights.enum.map (fun p =>
      { id := db.next_flight_id + p.1, trip_id := trip.id, airline := p.2.airline
        departure_airport := p.2.departure_airport
        arrival_airport := p.2.arrival_airport
        departure_time := p.2.departure_time, arrival_time := p.2.arrival_time })
  let hotels : List Hotel :=
    tc.hotels.enum.map (fun p =>
      { id := db.next_hotel_id + p.1, trip_id := trip.id, name := p.2.name
        city := p.2.city, check_in := p.2.check_in, check_out := p.2.check_out })
  (.ok (trip_to_read trip flights hotels []),
   { db with trips := db.trips ++ [trip]
             flights := db.flights ++ flights
             hotels := db.hotels ++ hotels
             next_trip_id := db.next_trip_id + 1
             next_flight_id := db.next_flight_id + tc.flights.length
             next_hotel_id := db.next_hotel_id + tc.hotels.length })

/-- `GET /trips` (`main.py` line 92): owned trips, then the shared trips not
already among them (`if shared_trip_ids:` short-circuits the second query when
the user holds no shares; `trip not in owned_trips` compares whole rows). -/
def list_trips (db : DB) (current_user_id : Nat) : List TripRead :=
  let owned_trips := db.trips.filter (fun t => t.owner_id == current_user_id)
  let shared_trip_ids :=
    (db.shares.filter (fun s => s.user_id == current_user_id)).map (fun s => s.trip_id)
  let shared_trips :=
    if shared_trip_ids.isEmpty then []
    else db.trips.filter (fun t => shared_trip_ids.contains t.id)
  let trips := owned_trips ++ shared_trips.filter (fun t => !(owned_trips.contains t))
  trips.map (fun t =>
    trip_to_read t (fetch_flights db t.id) (fetch_hotels db t.id) (fetch_share_ids db t.id))

/-- `GET /trips/{trip_id}` (`main.py` line 105). -/
def get_trip (db : DB) (current_user_id trip_id : Nat) : Except ApiError TripRead :=
  match getTripById db trip_id with
  | none => .error (.notFound "Trip not found")
  | some trip =>
      if trip.owner_id != current_user_id && !(user_has_access db current_user_id trip_id) then
        .error (.forbidden "Not authorized to view this trip")
      else
        .ok (trip_to_read trip (fetch_flights db trip_id) (fetch_hotels db trip_id)
              (fetch_share_ids db trip_id))

/-- `POST /trips/{trip_id}/share` (`main.py` line 117): 404 on missing trip,
403 for a non-owner, 404 on unknown target email, 400 on self-share, silent
no-op when the share row already exists, otherwise insert one row. -/
def share_trip (db : DB) (now : Nat) (current_user_id trip_id : Nat) (email : String) :
    Except ApiError Unit × DB :=
  match getTripById db trip_id with
  | none => (.error (.notFound "Trip not found"), db)
  | some trip =>
      if trip.owner_id != current_user_id then
        (.error (.forbidden "Only the owner can share the trip"), db)
      else
        match findUserByEmail db email with
        | none => (.error (.notFound "User to share with was not found"), db)
        | some target_user =>
            if target_user.id == current_user_id then
              (.error (.badRequest "Cannot share a trip with yourself"), db)
            else
              match db.shares.find?
                  (fun s => s.trip_id == trip_id && s.user_id == target_user.id) with
              | some _ => (.ok (), db)
              | none =>
                  (.ok (),
                   { db with shares := db.shares ++
                       [{ trip_id := trip_id, user_id := target_user.id, created_at := now }] })

/-- `POST /trips/{trip_id}/flights` (`main.py` line 142).  The handler runs
`_ensure_trip_access`, inserts the row, then re-fetches the trip with
`session.get`; the insert leaves the trip table untouched, so the second
fetch returns the row the access check already found and is inlined here. -/
def add_flight (db : DB) (current_user_id trip_id : Nat) (fc : FlightCreate) :
    Except ApiError TripRead × DB :=
  match getTripById db trip_id with
  | none => (.error (.notFound "Trip not found"), db)
  | some trip =>
      if trip.owner_id != current_user_id && !(user_has_access db current_user_id trip_id) then
        (.error (.forbidden "Not authorized for this trip"), db)
      else
        let row : Flight :=
          { id := db.next_flight_id, trip_id := trip_id, airline := fc.airline
            departure_airport := fc.departure_airport
            arrival_airport := fc.arrival_airport
            departure_time := fc.departure_time, arrival_time := fc.arrival_time }
        let db' := { db with flights := db.flights ++ [row]
                             next_flight_id := db.next_flight_id + 1 }
        (.ok (trip_to_read trip (fetch_flights db' trip_id) (fetch_hotels db' trip_id)
               (fetch_share_ids db' trip_id)), db')

/-- `POST /trips/{trip_id}/hotels` (`main.py` line 161); same shape as
`add_flight`. -/
def add_hotel (db : DB) (current_user_id trip_id : Nat) (hc : HotelCreate) :
    Except ApiError TripRead × DB :=
  match getTripById db trip_id with
  | none => (.error (.notFound "Trip not found"), db)
  | some trip =>
      if trip.owner_id != current_user_id && !(user_has_access db current_user_id trip_id) then
        (.error (.forbidden "Not authorized for this trip"), db)
      else
        let row : Hotel :=
          { id := db.next_hotel_id, trip_id := trip_id, name := hc.name
            city := hc.city, check_in := hc.check_in, check_out := hc.check_out }
        let db' := { db with hotels := db.hotels ++ [row]
                             next_hotel_id := db.next_hotel_id + 1 }
        (.ok (trip_to_read trip (fetch_flights db' trip_id) (fetch_hotels db' trip_id)
               (fetch_share_ids db' trip_id)), db')

/-- Spec-level access predicate, written from the spec's words: `canView
(userId, trip)` is true if `userId == trip.owner` OR a TripShare row exists
for `(trip.id, userId)`; `canModify` is specified to be identical. -/
def canView (db : DB) (user_id : Nat) (trip : Trip) : Bool :=
  user_id == trip.owner_id ||
    db.shares.any (fun s => s.trip_id == trip.id && s.user_id == user_id)

/-- Spec-level listing, written from the spec's words: the union of trips
owned by the user and trips shared to the user, deduplicated by trip id with
owned trips taking precedence over duplicate shared entries. -/
def listForUser (db : DB) (user_id : Nat) : List Trip :=
  let owned := db.trips.filter (fun t => t.owner_id == user_id)
  let sharedTo := db.trips.filter (fun t =>
    db.shares.any (fun s => s.trip_id == t.id && s.user_id == user_id))
  owned ++ sharedTo.filter (fun t => !((owned.map Trip.id).contains t.id))

/-- One state transition of the store: some authenticated caller runs one of
the state-changing handlers with arbitrary arguments.  `login`, `GET /trips`
and `GET /trips/{id}` never write (no `session.add`/`commit`), so they do not
appear.  The caller id is unconstrained, which only enlarges the set of
states below. -/
inductive Step : DB → DB → Prop where
  | register (db : DB) (now : Nat) (email password : String) :
      Step db (register db now email password).2
  | createTrip (db : DB) (now uid : Nat) (tc : TripCreate) :
      Step db (create_trip db now uid tc).2
  | shareTrip (db : DB) (now uid tid : Nat) (email : String) :
      Step db (share_trip db now uid tid email).2
  | addFlight (db : DB) (uid tid : Nat) (fc : FlightCreate) :
      Step db (add_flight db uid tid fc).2
  | addHotel (db : DB) (uid tid : Nat) (hc : HotelCreate) :
      Step db (add_hotel db uid tid hc).2

/-- States reachable from the empty store via the API operations. -/
inductive Reachable : DB → Prop where
  | empty : Reachable emptyDB
  | step {db db' : DB} : Reachable db → Step db db' → Reachable db'

/-- Flight payload of the concrete run below. -/
def fcParis : FlightCreate :=
  { airline := "AF", departure_airport := "JFK", arrival_airport := "CDG"
    departure_time := 11, arrival_time := 12 }

/-- Hotel payload of the concrete run below. -/
def hcParis : HotelCreate :=
  { name := "Le Grand", city := "Paris", check_in := 13, check_out := 14 }

/-- Trip payload of the concrete run below. -/
def tcParis : TripCreate :=
  { name := "Paris", start_date := some 10, end_date := some 20
    flights := [fcParis], hotels := [hcParis] }

/-- A concrete run: register alice (user id 1) and bob (user id 2). -/
def dbUsers : DB :=
  (register (register emptyDB 0 "alice@example.com" "password123").2
    1 "bob@example.com" "password456").2

/-- Alice creates the trip Paris (trip id 1) with one flight and one hotel. -/
def dbTrip : DB :=
  (create_trip dbUsers 2 1 tcParis).2

/-- Alice shares trip 1 with bob. -/
def dbShared : DB :=
  (share_trip dbTrip 3 1 1 "bob@example.com").2

/-- Alice's user row as stored in `dbUsers`. -/
def aliceUser : User :=
  { id := 1, email := "alice@example.com"
    hashed_password := get_password_hash "password123", created_at := 0 }

/-- Bob's user row as stored in `dbUsers`. -/
def bobUser : User :=
  { id := 2, email := "bob@example.com"
    hashed_password := get_password_hash "password456", created_at := 1 }

/-- The Paris trip row as stored in `dbTrip`. -/
def tripParis : Trip :=
  { id := 1, name := "Paris", owner_id := 1
    start_date := some 10, end_date := some 20, created_at := 2 }

/-- Well-formedness invariant maintained by every state-changing handler:
trip ids are fresh and unique, share keys are unique, and every share row
references an existing trip whose owner is not the share target. -/
def WF (db : DB) : Prop :=
  (∀ t ∈ db.trips, t.id < db.next_trip_id) ∧
  (db.trips.map Trip.id).Nodup ∧
  (db.shares.map (fun s => (s.trip_id, s.user_id))).Nodup ∧
  (∀ s ∈ db.shares, ∃ t ∈ db.trips, t.id = s.trip_id ∧ s.user_id ≠ t.owner_id)

/-- The empty store is well-formed. -/
theorem WF_emptyDB : WF emptyDB := by
  refine ⟨?_, ?_, ?_, ?_⟩ <;> simp [emptyDB]

/-- `register` touches only the user table, so `WF` is preserved. -/
theorem WF_register (db : DB) (now : Nat) (e p : String) (h : WF db) :
    WF (register db now e p).2 := by
  have hcomp : (register db now e p).2.trips = db.trips ∧
      (register db now e p).2.shares = db.shares ∧
      (register db now e p).2.next_trip_id = db.next_trip_id := by
    cases hf : findUserByEmail db e <;> simp [register, hf]
  unfold WF at h ⊢
  rw [hcomp.1, hcomp.2.1, hcomp.2.2]
  exact h

/-- `add_flight` touches only the flight table, so `WF` is preserved. -/
theorem WF_add_flight (db : DB) (uid tid : Nat) (fc : FlightCreate) (h : WF db) :
    WF (add_flight db uid tid fc).2 := by
  have hcomp : (add_flight db uid tid fc).2.trips = db.trips ∧
      (add_flight db uid tid fc).2.shares = db.shares ∧
      (add_flight db uid tid fc).2.next_trip_id = db.next_trip_id := by
    cases hget : getTripById db tid with
    | none => simp [add_flight, hget]
    | some trip =>
        cases hc : (trip.owner_id != uid && !(user_has_access db uid tid)) <;>
          simp [add_flight, hget, hc]
  unfold WF at h ⊢
  rw [hcomp.1, hcomp.2.1, hcomp.2.2]
  exact h

/-- `add_hotel` touches only the hotel table, so `WF` is preserved. -/
theorem WF_add_hotel (db : DB) (uid tid : Nat) (hc : HotelCreate) (h : WF db) :
    WF (add_hotel db uid tid hc).2 := by
  have hcomp : (add_hotel db uid tid hc).2.trips = db.trips ∧
      (add_hotel db uid tid hc).2.shares = db.shares ∧
      (add_hotel db uid tid hc).2.next_trip_id = db.next_trip_id := by
    cases hget : getTripById db tid with
    | none => simp [add_hotel, hget]
    | some trip =>
        cases hcnd : (trip.owner_id != uid && !(user_has_access db uid tid)) <;>
          simp [add_hotel, hget, hcnd]
  unfold WF at h ⊢
  rw [hcomp.1, hcomp.2.1, hcomp.2.2]
  exact h

/-- `create_trip` inserts a trip with the fresh id `next_trip_id` and leaves
the share table alone, so `WF` is preserved. -/
theorem WF_create_trip (db : DB) (now uid : Nat) (tc : TripCreate) (h : WF db) :
    WF (create_trip db now uid tc).2 := by
  obtain ⟨h1, h2, h3, h4⟩ := h
  refine ⟨?_, ?_, ?_, ?_⟩
  · intro t ht
    simp only [create_trip] at ht ⊢
    rcases List.mem_append.mp ht with hmem | hmem
    · exact Nat.lt_succ_of_lt (h1 t hmem)
    · simp only [List.mem_singleton] at hmem
      subst hmem
      exact Nat.lt_succ_self _
  · simp only [create_trip, List.map_append, List.map_singleton]
    apply List.Nodup.append h2 (List.nodup_singleton _)
    rw [List.disjoint_left]
    intro x hx hx2
    simp only [List.mem_singleton] at hx2
    obtain ⟨t, ht, hxe⟩ := List.mem_map.mp hx
    have hlt := h1 t ht
    rw [hxe.symm] at hx2
    rw [hx2] at hlt
    exact Nat.lt_irrefl _ hlt
  · simp only [create_trip]
    exact h3
  · simp only [create_trip]
    intro s hs
    obtain ⟨t, ht, hid, hne⟩ := h4 s hs
    exact ⟨t, List.mem_append_left _ ht, hid, hne⟩

/-- `share_trip` either leaves the store alone or inserts one share row whose
key is absent, for an existing trip owned by the caller and a target distinct
from the caller, so `WF` is preserved. -/
theorem WF_share_trip (db : DB) (now uid tid : Nat) (email : String) (h : WF db) :
    WF (share_trip db now uid tid email).2 := by
  obtain ⟨h1, h2, h3, h4⟩ := h
  cases hget : getTripById db tid with
  | none =>
      have hdb : (share_trip db now uid tid email).2 = db := by
        simp [share_trip, hget]
      rw [hdb]
      exact ⟨h1, h2, h3, h4⟩
  | some trip =>
      cases hown : (trip.owner_id != uid) with
      | true =>
          have hdb : (share_trip db now uid tid email).2 = db := by
            simp [share_trip, hget, hown]
          rw [hdb]
          exact ⟨h1, h2, h3, h4⟩
      | false =>
          cases hfu : findUserByEmail db email with
          | none =>
              have hdb : (share_trip db now uid tid email).2 = db := by
                simp [share_trip, hget, hown, hfu]
              rw [hdb]
              exact ⟨h1, h2, h3, h4⟩
          | some v =>
              cases hvid : (v.id == uid) with
              | true =>
                  have hdb : (share_trip db now uid tid email).2 = db := by
                    simp [share_trip, hget, hown, hfu, hvid]
                  rw [hdb]
                  exact ⟨h1, h2, h3, h4⟩
              | false =>
                  cases hfs : db.shares.find?
                      (fun s => s.trip_id == tid && s.user_id == v.id) with
                  | some s0 =>
                      have hdb : (share_trip db now uid tid email).2 = db := by
                        simp [share_trip, hget, hown, hfu, hvid, hfs]
                      rw [hdb]
                      exact ⟨h1, h2, h3, h4⟩
                  | none =>
                      have howner : trip.owner_id = uid := by simpa using hown
                      have hvne : v.id ≠ uid := by simpa using hvid
                      have htmem : trip ∈ db.trips :=
                        List.mem_of_find?_eq_some (by simpa [getTripById] using hget)
                      have htid : trip.id = tid := by
                        simpa using List.find?_some
                          (p := fun (t : Trip) => t.id == tid)
                          (by simpa [getTripById] using hget)
                      have hdb : (share_trip db now uid tid email).2 =
                          { db with shares := db.shares ++
                              [{ trip_id := tid, user_id := v.id, created_at := now }] } := by
                        simp [share_trip, hget, hown, hfu, hvid, hfs]
                      rw [hdb]
                      refine ⟨h1, h2, ?_, ?_⟩
                      · show (List.map (fun s => (s.trip_id, s.user_id)) (db.shares ++
                          [{ trip_id := tid, user_id := v.id, created_at := now }])).Nodup
                        rw [List.map_append, List.map_singleton]
                        apply List.Nodup.append h3 (List.nodup_singleton _)
                        rw [List.disjoint_left]
                        intro x hx hx2
                        simp only [List.mem_singleton] at hx2
                        obtain ⟨s, hs, hxe⟩ := List.mem_map.mp hx
                        have hnp := List.find?_eq_none.mp hfs s hs
                        rw [hx2] at hxe
                        have hks : s.trip_id = tid := congrArg Prod.fst hxe
                        have hku : s.user_id = v.id := congrArg Prod.snd hxe
                        apply hnp
                        simp [hks, hku]
                      · show ∀ s ∈ db.shares ++
                          [{ trip_id := tid, user_id := v.id, created_at := now }],
                          ∃ t ∈ db.trips, t.id = s.trip_id ∧ s.user_id ≠ t.owner_id
                        intro s hs
                        rcases List.mem_append.mp hs with hmem | hmem
                        · exact h4 s hmem
                        · simp only [List.mem_singleton] at hmem
                          subst hmem
                          refine ⟨trip, htmem, htid, ?_⟩
                          rw [howner]
                          exact hvne

/-- Every single API step preserves `WF`. -/
theorem WF_step {db db' : DB} (hs : Step db db') (h : WF db) : WF db' := by
  cases hs with
  | register now e p => exact WF_register db now e p h
  | createTrip now uid tc => exact WF_create_trip db now uid tc h
  | shareTrip now uid tid email => exact WF_share_trip db now uid tid email h
  | addFlight uid tid fc => exact WF_add_flight db uid tid fc h
  | addHotel uid tid hc => exact WF_add_hotel db uid tid hc h

/-- Every reachable store is well-formed. -/
theorem WF_reachable {db : DB} (h : Reachable db) : WF db := by
  induction h with
  | empty => exact WF_emptyDB
  | step hr hst ih => exact WF_step hst ih

/-- The concrete run ending in `dbShared` is reachable. -/
theorem reachable_dbShared : Reachable dbShared :=
  Reachable.step
    (Reachable.step
      (Reachable.step
        (Reachable.step Reachable.empty
          (Step.register emptyDB 0 "alice@example.com" "password123"))
        (Step.register (register emptyDB 0 "alice@example.com" "password123").2
          1 "bob@example.com" "password456"))
      (Step.createTrip dbUsers 2 1 tcParis))
    (Step.shareTrip dbTrip 3 1 1 "bob@example.com")

/-- Claim C1: for every authenticated user and every existing trip, each of
GET /trips/id, POST /trips/id/flights and POST /trips/id/hotels succeeds
exactly when the user is the trip's owner or a TripShare row for
(trip id, user id) exists — i.e. exactly when the spec's `canView` holds, so
append access is granted under the same condition as view access. -/
theorem trip_scoped_access_iff (db : DB) (uid tid : Nat) (trip : Trip)
    (fc : FlightCreate) (hc : HotelCreate)
    (htrip : getTripById db tid = some trip) :
    ((get_trip db uid tid).isOk = canView db uid trip) ∧
    ((add_flight db uid tid fc).1.isOk = canView db uid trip) ∧
    ((add_hotel db uid tid hc).1.isOk = canView db uid trip) := by
  have hid : trip.id = tid := by
    have hp := List.find?_some (p := fun (t : Trip) => t.id == tid)
      (by simpa [getTripById] using htrip)
    simpa using hp
  have hacc : user_has_access db uid tid =
      db.shares.any (fun s => s.trip_id == trip.id && s.user_id == uid) := by
    unfold user_has_access
    rw [hid, Bool.eq_iff_iff]
    simp [List.find?_isSome, List.any_eq_true]
  by_cases howner : trip.owner_id = uid
  · refine ⟨?_, ?_, ?_⟩ <;>
      simp [get_trip, add_flight, add_hotel, Except.isOk, Except.toBool, htrip, howner, canView]
  · by_cases hshare : user_has_access db uid tid = true
    · have hany : (db.shares.any fun s => s.trip_id == trip.id && s.user_id == uid) = true := by
        rw [← hacc]; exact hshare
      refine ⟨?_, ?_, ?_⟩ <;>
        simp [get_trip, add_flight, add_hotel, Except.isOk, Except.toBool, htrip, howner,
          hshare, canView, hany]
    · have hsf : user_has_access db uid tid = false := by
        simpa using hshare
      have hany : (db.shares.any fun s => s.trip_id == trip.id && s.user_id == uid) = false := by
        rw [← hacc]; exact hsf
      have hbeq : (uid == trip.owner_id) = false := by
        rw [beq_eq_false_iff_ne]
        exact fun hcontra => howner hcontra.symm
      refine ⟨?_, ?_, ?_⟩ <;>
        simp [get_trip, add_flight, add_hotel, Except.isOk, Except.toBool, htrip, howner,
          hsf, canView, hany, hbeq]

/-- Witness for C1: in the concrete shared store, the three operations are
decided by `canView` for bob. -/
theorem trip_scoped_access_iff_witness :
    getTripById dbShared 1 = some tripParis ∧
    (((get_trip dbShared 2 1).isOk = canView dbShared 2 tripParis) ∧
     ((add_flight dbShared 2 1 fcParis).1.isOk = canView dbShared 2 tripParis) ∧
     ((add_hotel dbShared 2 1 hcParis).1.isOk = canView dbShared 2 tripParis)) :=
  ⟨by decide, trip_scoped_access_iff dbShared 2 1 tripParis fcParis hcParis (by decide)⟩

/-- Claim C2: for every trip-scoped operation, a nonexistent trip id yields
NotFound (404) for every caller, and an existing trip with a caller lacking
the relevant access yields Forbidden (403) — existence is checked before
authorization. -/
theorem existence_before_authorization (db : DB) (now uid tid : Nat) (email : String)
    (fc : FlightCreate) (hc : HotelCreate) :
    (getTripById db tid = none →
      get_trip db uid tid = .error (.notFound "Trip not found") ∧
      (share_trip db now uid tid email).1 = .error (.notFound "Trip not found") ∧
      (add_flight db uid tid fc).1 = .error (.notFound "Trip not found") ∧
      (add_hotel db uid tid hc).1 = .error (.notFound "Trip not found")) ∧
    (∀ trip : Trip, getTripById db tid = some trip →
      (canView db uid trip = false →
        get_trip db uid tid = .error (.forbidden "Not authorized to view this trip") ∧
        (add_flight db uid tid fc).1 = .error (.forbidden "Not authorized for this trip") ∧
        (add_hotel db uid tid hc).1 = .error (.forbidden "Not authorized for this trip")) ∧
      (trip.owner_id ≠ uid →
        (share_trip db now uid tid email).1 =
          .error (.forbidden "Only the owner can share the trip"))) := by
  constructor
  · intro h
    refine ⟨?_, ?_, ?_, ?_⟩ <;> simp [get_trip, share_trip, add_flight, add_hotel, h]
  · intro trip htrip
    have hid : trip.id = tid := by
      have hp := List.find?_some (p := fun (t : Trip) => t.id == tid)
        (by simpa [getTripById] using htrip)
      simpa using hp
    constructor
    · intro hcv
      have hcv2 := hcv
      simp only [canView, Bool.or_eq_false_iff] at hcv2
      obtain ⟨hbeq, hany⟩ := hcv2
      have howner : trip.owner_id ≠ uid := by
        intro hcontra
        rw [beq_eq_false_iff_ne] at hbeq
        exact hbeq hcontra.symm
      have hnone : db.shares.find? (fun s => s.trip_id == trip.id && s.user_id == uid) =
          none := by
        rw [List.find?_eq_none]
        intro s hs
        have := List.any_eq_false.mp hany s hs
        simpa using this
      have hsf : user_has_access db uid tid = false := by
        unfold user_has_access
        rw [← hid, hnone]
        rfl
      refine ⟨?_, ?_, ?_⟩ <;> simp [get_trip, add_flight, add_hotel, htrip, howner, hsf]
    · intro hne
      simp [share_trip, htrip, hne]

/-- Witness for C2: GET on a nonexistent trip id is a 404, and GET by a user
with no access to an existing trip is a 403, in the concrete shared store. -/
theorem existence_before_authorization_witness :
    get_trip dbShared 1 99 = .error (.notFound "Trip not found") ∧
    get_trip dbShared 3 1 = .error (.forbidden "Not authorized to view this trip") :=
  ⟨((existence_before_authorization dbShared 0 1 99 "bob@example.com"
      fcParis hcParis).1 (by decide)).1,
   (((existence_before_authorization dbShared 0 3 1 "bob@example.com"
      fcParis hcParis).2 tripParis (by decide)).1 (by decide)).1⟩

/-- Claim C3: in every store reachable from the empty store via the API
operations, the TripShare table has at most one row per (trip_id, user_id)
pair, and no row whose user_id equals the owner_id of the trip it
references. -/
theorem reachable_share_table_invariant (db : DB) (h : Reachable db) :
    (db.shares.map (fun s => (s.trip_id, s.user_id))).Nodup ∧
    ∀ s ∈ db.shares, ∀ t ∈ db.trips, t.id = s.trip_id → s.user_id ≠ t.owner_id := by
  obtain ⟨h1, h2, h3, h4⟩ := WF_reachable h
  refine ⟨h3, ?_⟩
  intro s hs t ht hid
  obtain ⟨t', ht', hid', hne⟩ := h4 s hs
  have heq : t = t' := List.inj_on_of_nodup_map h2 ht ht' (by rw [hid, hid'])
  rw [heq]
  exact hne

/-- Witness for C3: the share table of the concrete reachable store has
duplicate-free keys. -/
theorem reachable_share_table_invariant_witness :
    (dbShared.shares.map (fun s => (s.trip_id, s.user_id))).Nodup :=
  (reachable_share_table_invariant dbShared reachable_dbShared).1

/-- If the share table has duplicate-free (trip_id, user_id) keys and `find?`
hits some row matching a key-determined predicate, then exactly one row
matches. -/
theorem filter_key_length_one (l : List TripShare) (p : TripShare → Bool) (s0 : TripShare)
    (hnodup : (l.map (fun s => (s.trip_id, s.user_id))).Nodup)
    (hfound : l.find? p = some s0)
    (hkey : ∀ s ∈ l, p s = true → (s.trip_id, s.user_id) = (s0.trip_id, s0.user_id)) :
    (l.filter p).length = 1 := by
  have hmem0 : s0 ∈ l.filter p := by
    rw [List.mem_filter]
    exact ⟨List.mem_of_find?_eq_some hfound, List.find?_some hfound⟩
  have hsub : List.Sublist ((l.filter p).map (fun s => (s.trip_id, s.user_id)))
      (l.map (fun s => (s.trip_id, s.user_id))) := (List.filter_sublist l).map _
  have hnd : ((l.filter p).map (fun s => (s.trip_id, s.user_id))).Nodup := hnodup.sublist hsub
  have hall : ∀ x ∈ (l.filter p).map (fun s => (s.trip_id, s.user_id)),
      x = (s0.trip_id, s0.user_id) := by
    intro x hx
    obtain ⟨s, hs, rfl⟩ := List.mem_map.mp hx
    have hsl := List.mem_filter.mp hs
    exact hkey s hsl.1 hsl.2
  have hrep := List.eq_replicate_length.mpr hall
  have hle : ((l.filter p).map (fun s => (s.trip_id, s.user_id))).length ≤ 1 := by
    have hnd2 := hrep ▸ hnd
    simpa [List.nodup_replicate] using hnd2
  have hge : 0 < (l.filter p).length := List.length_pos.mpr (List.ne_nil_of_mem hmem0)
  have hle2 : (l.filter p).length ≤ 1 := by simpa using hle
  omega

/-- Claim C4: sharing a trip twice with the same registered non-owner user is
idempotent — both calls return success (204), and afterwards exactly one
TripShare row for (trip id, target id) exists. -/
theorem share_idempotent (db : DB) (now1 now2 o tid : Nat) (trip : Trip) (v : User)
    (email : String)
    (hnodup : (db.shares.map (fun s => (s.trip_id, s.user_id))).Nodup)
    (htrip : getTripById db tid = some trip)
    (howner : trip.owner_id = o)
    (hv : findUserByEmail db email = some v)
    (hne : v.id ≠ o) :
    (share_trip db now1 o tid email).1 = .ok () ∧
    (share_trip (share_trip db now1 o tid email).2 now2 o tid email).1 = .ok () ∧
    ((share_trip (share_trip db now1 o tid email).2 now2 o tid email).2.shares.filter
        (fun s => s.trip_id == tid && s.user_id == v.id)).length = 1 := by
  have hbne : (trip.owner_id != o) = false := by simp [howner]
  have hvne : (v.id == o) = false := by rw [beq_eq_false_iff_ne]; exact hne
  cases hfound : db.shares.find? (fun s => s.trip_id == tid && s.user_id == v.id) with
  | some s0 =>
      have hdb1 : ∀ n : Nat, (share_trip db n o tid email).2 = db := by
        intro n
        simp [share_trip, htrip, hbne, hv, hvne, hfound]
      have hres : ∀ n : Nat, (share_trip db n o tid email).1 = .ok () := by
        intro n
        simp [share_trip, htrip, hbne, hv, hvne, hfound]
      rw [hdb1 now1]
      refine ⟨hres now1, hres now2, ?_⟩
      rw [hdb1 now2]
      refine filter_key_length_one db.shares _ s0 hnodup hfound ?_
      intro s hs hp
      have h0 := List.find?_some hfound
      simp only [Bool.and_eq_true, beq_iff_eq] at hp h0
      simp [hp.1, hp.2, h0.1, h0.2]
  | none =>
      have hdb1 : (share_trip db now1 o tid email).2 =
          { db with shares := db.shares ++
              [{ trip_id := tid, user_id := v.id, created_at := now1 }] } := by
        simp [share_trip, htrip, hbne, hv, hvne, hfound]
      have hres1 : (share_trip db now1 o tid email).1 = .ok () := by
        simp [share_trip, htrip, hbne, hv, hvne, hfound]
      have hfound2 : ({ db with shares := db.shares ++
            [{ trip_id := tid, user_id := v.id, created_at := now1 }] } : DB).shares.find?
          (fun s => s.trip_id == tid && s.user_id == v.id) =
          some { trip_id := tid, user_id := v.id, created_at := now1 } := by
        simp [List.find?_append, hfound]
      have htrip2 : getTripById ({ db with shares := db.shares ++
          [{ trip_id := tid, user_id := v.id, created_at := now1 }] } : DB) tid = some trip := by
        simpa [getTripById] using htrip
      have hv2 : findUserByEmail ({ db with shares := db.shares ++
          [{ trip_id := tid, user_id := v.id, created_at := now1 }] } : DB) email = some v := by
        simpa [findUserByEmail] using hv
      refine ⟨hres1, ?_, ?_⟩
      · rw [hdb1]
        simp [share_trip, htrip2, hbne, hv2, hvne, hfound2]
      · rw [hdb1]
        have hdb2 : (share_trip ({ db with shares := db.shares ++
              [{ trip_id := tid, user_id := v.id, created_at := now1 }] } : DB)
                now2 o tid email).2 =
            { db with shares := db.shares ++
              [{ trip_id := tid, user_id := v.id, created_at := now1 }] } := by
          simp [share_trip, htrip2, hbne, hv2, hvne, hfound2]
        rw [hdb2]
        have hnilf : db.shares.filter (fun s => s.trip_id == tid && s.user_id == v.id) = [] := by
          rw [List.filter_eq_nil_iff]
          intro a ha
          have := List.find?_eq_none.mp hfound a ha
          simpa using this
        simp [List.filter_append, hnilf]

/-- Witness for C4: alice sharing the Paris trip with bob twice leaves exactly
one share row and both calls succeed. -/
theorem share_idempotent_witness :
    (share_trip dbTrip 3 1 1 "bob@example.com").1 = .ok () ∧
    (share_trip (share_trip dbTrip 3 1 1 "bob@example.com").2 4 1 1 "bob@example.com").1 =
      .ok () ∧
    ((share_trip (share_trip dbTrip 3 1 1 "bob@example.com").2 4 1 1
        "bob@example.com").2.shares.filter
      (fun s => s.trip_id == 1 && s.user_id == bobUser.id)).length = 1 :=
  share_idempotent dbTrip 3 4 1 1 tripParis bobUser "bob@example.com"
    (by decide) (by decide) (by decide) (by decide) (by decide)

/-- Claim C5: GET /trips returns exactly the union of the trips owned by the
caller and the trips shared to the caller — the spec's `listForUser`, with
owned trips taking precedence over duplicate shared entries — and the result
never contains two entries with the same trip id. -/
theorem list_trips_owned_union_shared (db : DB) (uid : Nat)
    (hids : (db.trips.map Trip.id).Nodup) :
    list_trips db uid = (listForUser db uid).map (fun t =>
      trip_to_read t (fetch_flights db t.id) (fetch_hotels db t.id) (fetch_share_ids db t.id)) ∧
    ((list_trips db uid).map (fun tv => tv.id)).Nodup := by
  have hpred : ∀ t : Trip,
      (((db.shares.filter (fun s => s.user_id == uid)).map (fun s => s.trip_id)).contains t.id)
        = db.shares.any (fun s => s.trip_id == t.id && s.user_id == uid) := by
    intro t
    rw [Bool.eq_iff_iff, List.elem_iff]
    simp only [List.mem_map, List.mem_filter, List.any_eq_true, Bool.and_eq_true, beq_iff_eq]
    constructor
    · rintro ⟨s, ⟨hs, hu⟩, hid⟩
      exact ⟨s, hs, hid, hu⟩
    · rintro ⟨s, hs, hid, hu⟩
      exact ⟨s, ⟨hs, hu⟩, hid⟩
  have hshared :
      (if ((db.shares.filter (fun s => s.user_id == uid)).map (fun s => s.trip_id)).isEmpty
        then ([] : List Trip)
        else db.trips.filter (fun t =>
          ((db.shares.filter (fun s => s.user_id == uid)).map (fun s => s.trip_id)).contains t.id))
      = db.trips.filter (fun t =>
          db.shares.any (fun s => s.trip_id == t.id && s.user_id == uid)) := by
    cases hemp : ((db.shares.filter (fun s => s.user_id == uid)).map (fun s => s.trip_id)).isEmpty
    · rw [if_neg (by simp [hemp])]
      exact List.filter_congr (fun t _ => hpred t)
    · rw [if_pos (by simp [hemp])]
      have hnil : ((db.shares.filter (fun s => s.user_id == uid)).map (fun s => s.trip_id)) = [] :=
        List.isEmpty_iff.mp hemp
      symm
      rw [List.filter_eq_nil_iff]
      intro t _
      rw [← hpred t, hnil]
      simp
  have hdedup : ∀ t ∈ db.trips,
      (!((db.trips.filter (fun t' => t'.owner_id == uid)).contains t))
        = (!(((db.trips.filter (fun t' => t'.owner_id == uid)).map Trip.id).contains t.id)) := by
    intro t ht
    congr 1
    rw [Bool.eq_iff_iff, List.elem_iff, List.elem_iff]
    simp only [List.mem_map, List.mem_filter]
    constructor
    · rintro ⟨htm, ho⟩
      exact ⟨t, ⟨htm, ho⟩, rfl⟩
    · rintro ⟨t', ⟨ht', ho⟩, hide⟩
      have heq : t' = t := List.inj_on_of_nodup_map hids ht' ht hide
      subst heq
      exact ⟨ht', ho⟩
  have htl :
      (db.trips.filter (fun t => t.owner_id == uid)) ++
        ((db.trips.filter (fun t => db.shares.any
          (fun s => s.trip_id == t.id && s.user_id == uid))).filter
            (fun t => !((db.trips.filter (fun t' => t'.owner_id == uid)).contains t)))
      = listForUser db uid := by
    unfold listForUser
    congr 1
    apply List.filter_congr
    intro t ht
    exact hdedup t (List.mem_filter.mp ht).1
  constructor
  · show _ = _
    simp only [list_trips]
    rw [hshared]
    rw [← htl]
  · simp only [list_trips]
    rw [hshared]
    have hmapid : ∀ l : List Trip,
        ((l.map (fun t => trip_to_read t (fetch_flights db t.id) (fetch_hotels db t.id)
          (fetch_share_ids db t.id))).map (fun tv => tv.id)) = l.map Trip.id := by
      intro l
      rw [List.map_map]
      rfl
    rw [hmapid, List.map_append]
    apply List.Nodup.append
    · exact hids.sublist ((List.filter_sublist _).map _)
    · exact hids.sublist (((List.filter_sublist _).trans (List.filter_sublist _)).map _)
    · rw [List.disjoint_left]
      intro x hx1 hx2
      obtain ⟨t2, ht2, rfl⟩ := List.mem_map.mp hx2
      have h2 := List.mem_filter.mp ht2
      have hcf : ((db.trips.filter (fun t' => t'.owner_id == uid)).contains t2) = false := by
        have := h2.2
        simp only [Bool.not_eq_true'] at this
        exact this
      obtain ⟨t1, ht1, hide⟩ := List.mem_map.mp hx1
      have heq : t1 = t2 := by
        apply List.inj_on_of_nodup_map hids (List.mem_filter.mp ht1).1
          (List.mem_filter.mp h2.1).1 hide
      subst heq
      have hct : ((db.trips.filter (fun t' => t'.owner_id == uid)).contains t1) = true :=
        List.elem_iff.mpr ht1
      exact absurd (hct.symm.trans hcf) (by decide)

/-- Witness for C5: bob's listing of the concrete shared store equals the
spec-level union and has duplicate-free trip ids. -/
theorem list_trips_owned_union_shared_witness :
    list_trips dbShared 2 = (listForUser dbShared 2).map (fun t =>
      trip_to_read t (fetch_flights dbShared t.id) (fetch_hotels dbShared t.id)
        (fetch_share_ids dbShared t.id)) ∧
    ((list_trips dbShared 2).map (fun tv => tv.id)).Nodup :=
  list_trips_owned_union_shared dbShared 2 (by decide)

/-- Claim C6: a successful GET /trips/id returns the trip's own fields
together with exactly the flights whose trip_id matches, exactly the hotels
whose trip_id matches, and exactly the user ids holding a TripShare on it. -/
theorem get_trip_composes (db : DB) (uid tid : Nat) (view : TripRead)
    (h : get_trip db uid tid = .ok view) :
    ∃ trip, trip ∈ db.trips ∧ trip.id = tid ∧
      view.id = trip.id ∧ view.name = trip.name ∧ view.owner_id = trip.owner_id ∧
      view.start_date = trip.start_date ∧ view.end_date = trip.end_date ∧
      view.flights = (db.flights.filter (fun f => f.trip_id == tid)).map Flight.toRead ∧
      view.hotels = (db.hotels.filter (fun hh => hh.trip_id == tid)).map Hotel.toRead ∧
      view.shared_with_user_ids =
        (db.shares.filter (fun s => s.trip_id == tid)).map (fun s => s.user_id) := by
  cases htrip : getTripById db tid with
  | none => simp [get_trip, htrip] at h
  | some trip =>
      have hmem : trip ∈ db.trips :=
        List.mem_of_find?_eq_some (by simpa [getTripById] using htrip)
      have hid : trip.id = tid := by
        have hp := List.find?_some (p := fun (t : Trip) => t.id == tid)
          (by simpa [getTripById] using htrip)
        simpa using hp
      simp only [get_trip, htrip] at h
      rcases hcond : (trip.owner_id != uid && !(user_has_access db uid tid)) with _ | _
      · rw [hcond] at h
        simp only [if_false, Bool.false_eq_true, reduceIte, Except.ok.injEq] at h
        refine ⟨trip, hmem, hid, ?_⟩
        subst h
        simp [trip_to_read, fetch_flights, fetch_hotels, fetch_share_ids]
      · rw [hcond] at h
        simp at h

/-- Witness for C6: bob's successful GET of trip 1 in the concrete shared
store decomposes into the stored rows. -/
theorem get_trip_composes_witness :
    ∃ trip, trip ∈ dbShared.trips ∧ trip.id = 1 ∧
      (trip_to_read tripParis (fetch_flights dbShared 1) (fetch_hotels dbShared 1)
        (fetch_share_ids dbShared 1)).id = trip.id ∧
      (trip_to_read tripParis (fetch_flights dbShared 1) (fetch_hotels dbShared 1)
        (fetch_share_ids dbShared 1)).name = trip.name ∧
      (trip_to_read tripParis (fetch_flights dbShared 1) (fetch_hotels dbShared 1)
        (fetch_share_ids dbShared 1)).owner_id = trip.owner_id ∧
      (trip_to_read tripParis (fetch_flights dbShared 1) (fetch_hotels dbShared 1)
        (fetch_share_ids dbShared 1)).start_date = trip.start_date ∧
      (trip_to_read tripParis (fetch_flights dbShared 1) (fetch_hotels dbShared 1)
        (fetch_share_ids dbShared 1)).end_date = trip.end_date ∧
      (trip_to_read tripParis (fetch_flights dbShared 1) (fetch_hotels dbShared 1)
        (fetch_share_ids dbShared 1)).flights =
        (dbShared.flights.filter (fun f => f.trip_id == 1)).map Flight.toRead ∧
      (trip_to_read tripParis (fetch_flights dbShared 1) (fetch_hotels dbShared 1)
        (fetch_share_ids dbShared 1)).hotels =
        (dbShared.hotels.filter (fun hh => hh.trip_id == 1)).map Hotel.toRead ∧
      (trip_to_read tripParis (fetch_flights dbShared 1) (fetch_hotels dbShared 1)
        (fetch_share_ids dbShared 1)).shared_with_user_ids =
        (dbShared.shares.filter (fun s => s.trip_id == 1)).map (fun s => s.user_id) :=
  get_trip_composes dbShared 2 1
    (trip_to_read tripParis (fetch_flights dbShared 1) (fetch_hotels dbShared 1)
      (fetch_share_ids dbShared 1)) (by decide)

/-- Claim C7: a login with an unknown email and a login with a known email
but wrong password produce the same Unauthenticated (401) outcome with the
same response, so the response does not reveal which part was wrong. -/
theorem login_indistinguishable (db : DB) (e1 p1 e2 p2 : String) (u : User)
    (h1 : findUserByEmail db e1 = none)
    (h2 : findUserByEmail db e2 = some u)
    (h3 : verify_password p2 u.hashed_password = false) :
    login db e1 p1 = .error (.unauthorized "Incorrect email or password") ∧
    login db e2 p2 = .error (.unauthorized "Incorrect email or password") ∧
    login db e1 p1 = login db e2 p2 := by
  have a1 : login db e1 p1 = .error (.unauthorized "Incorrect email or password") := by
    simp [login, h1]
  have a2 : login db e2 p2 = .error (.unauthorized "Incorrect email or password") := by
    simp [login, h2, h3]
  exact ⟨a1, a2, a1.trans a2.symm⟩

/-- Witness for C7: an unknown email and alice's email with a wrong password
yield identical 401 errors on the concrete user store. -/
theorem login_indistinguishable_witness :
    login dbUsers "nobody@example.com" "password123" =
      .error (.unauthorized "Incorrect email or password") ∧
    login dbUsers "alice@example.com" "wrongpassword" =
      .error (.unauthorized "Incorrect email or password") ∧
    login dbUsers "nobody@example.com" "password123" =
      login dbUsers "alice@example.com" "wrongpassword" :=
  login_indistinguishable dbUsers "nobody@example.com" "password123" "alice@example.com"
    "wrongpassword" aliceUser (by decide) (by decide) (by decide)

/-- Claim C8: a request to share an existing trip with the requester's own
account fails with a client error (400 self-share for the owner, 403 for a
non-owner) and leaves the store — in particular the TripShare table —
unchanged, regardless of ownership. -/
theorem self_share_rejected (db : DB) (now uid tid : Nat) (email : String)
    (trip : Trip) (u : User)
    (htrip : getTripById db tid = some trip)
    (hu : findUserByEmail db email = some u)
    (hid : u.id = uid) :
    ((share_trip db now uid tid email).1 =
        .error (.badRequest "Cannot share a trip with yourself") ∨
      (share_trip db now uid tid email).1 =
        .error (.forbidden "Only the owner can share the trip")) ∧
    (share_trip db now uid tid email).2 = db := by
  by_cases howner : trip.owner_id = uid
  · refine ⟨Or.inl ?_, ?_⟩ <;> simp [share_trip, htrip, howner, hu, hid]
  · refine ⟨Or.inr ?_, ?_⟩ <;> simp [share_trip, htrip, howner]

/-- Witness for C8: alice sharing her own trip with her own email gets a
client error and the store is unchanged. -/
theorem self_share_rejected_witness :
    ((share_trip dbShared 9 1 1 "alice@example.com").1 =
        .error (.badRequest "Cannot share a trip with yourself") ∨
      (share_trip dbShared 9 1 1 "alice@example.com").1 =
        .error (.forbidden "Only the owner can share the trip")) ∧
    (share_trip dbShared 9 1 1 "alice@example.com").2 = dbShared :=
  self_share_rejected dbShared 9 1 1 "alice@example.com" tripParis aliceUser
    (by decide) (by decide) (by decide)

/-- Claim C9: after a successful registration, registering the same email
again fails with Conflict (400), creates no user row, and leaves the first
user's stored record — id, email and password hash — unchanged. -/
theorem register_conflict (db : DB) (now1 now2 : Nat) (email p1 p2 : String) (r : UserRead)
    (hok : (register db now1 email p1).1 = .ok r) :
    (register (register db now1 email p1).2 now2 email p2).1 =
        .error (.badRequest "Email already registered") ∧
    (register (register db now1 email p1).2 now2 email p2).2 =
        (register db now1 email p1).2 ∧
    findUserByEmail (register db now1 email p1).2 email =
      some { id := db.next_user_id, email := email
             hashed_password := get_password_hash p1, created_at := now1 } := by
  rcases h : findUserByEmail db email with _ | u0
  · set db1 := (register db now1 email p1).2 with hdb1
    have husers : db1.users = db.users ++
        [{ id := db.next_user_id, email := email
           hashed_password := get_password_hash p1, created_at := now1 }] := by
      rw [hdb1]
      simp only [register, h]
    have hfind : findUserByEmail db1 email =
        some { id := db.next_user_id, email := email
               hashed_password := get_password_hash p1, created_at := now1 } := by
      unfold findUserByEmail
      rw [husers]
      unfold findUserByEmail at h
      simp [List.find?_append, h]
    refine ⟨?_, ?_, hfind⟩
    · unfold register
      rw [hfind]
    · unfold register
      rw [hfind]
  · exfalso
    simp [register, h] at hok

/-- Witness for C9: registering alice's email a second time on the concrete
store fails with Conflict and changes nothing. -/
theorem register_conflict_witness :
    (register (register emptyDB 0 "alice@example.com" "password123").2
        1 "alice@example.com" "password456").1 =
      .error (.badRequest "Email already registered") ∧
    (register (register emptyDB 0 "alice@example.com" "password123").2
        1 "alice@example.com" "password456").2 =
      (register emptyDB 0 "alice@example.com" "password123").2 ∧
    findUserByEmail (register emptyDB 0 "alice@example.com" "password123").2
        "alice@example.com" =
      some { id := emptyDB.next_user_id, email := "alice@example.com"
             hashed_password := get_password_hash "password123", created_at := 0 } :=
  register_conflict emptyDB 0 1 "alice@example.com" "password123" "password456"
    { id := 1, email := "alice@example.com" } (by decide)

/-- Claim C10: every call to POST /trips/id/share leaves the User, Trip,
Flight and Hotel tables unchanged, never modifies or deletes an existing
TripShare row, and appends at most one new TripShare row. -/
theorem share_trip_frame (db : DB) (now uid tid : Nat) (email : String) :
    (share_trip db now uid tid email).2.users = db.users ∧
    (share_trip db now uid tid email).2.trips = db.trips ∧
    (share_trip db now uid tid email).2.flights = db.flights ∧
    (share_trip db now uid tid email).2.hotels = db.hotels ∧
    ((share_trip db now uid tid email).2.shares = db.shares ∨
      ∃ s : TripShare, (share_trip db now uid tid email).2.shares = db.shares ++ [s]) := by
  unfold share_trip
  split
  · exact ⟨rfl, rfl, rfl, rfl, Or.inl rfl⟩
  · split
    · exact ⟨rfl, rfl, rfl, rfl, Or.inl rfl⟩
    · split
      · exact ⟨rfl, rfl, rfl, rfl, Or.inl rfl⟩
      · split
        · exact ⟨rfl, rfl, rfl, rfl, Or.inl rfl⟩
        · split
          · exact ⟨rfl, rfl, rfl, rfl, Or.inl rfl⟩
          · exact ⟨rfl, rfl, rfl, rfl, Or.inr ⟨_, rfl⟩⟩

end App
